import Mathlib

/-!
Verification of the rippled-hooks transactors (PayChan.cpp, SetHook.cpp,
applyHook.cpp) against their natural-language specification.

The source is shallowly embedded: each transactor phase becomes a Lean
function from an explicit context/ledger record to a terminal status paired
with the post-state.  External collaborators (the trust-line engine,
directory primitives, signature verification, the WASM engine) are passed in
as result parameters, matching the spec's interface-only treatment of them.
Machine integers are modelled as Nat/Int, with an explicit mod 2^32 where the
source performs wrapping uint32 arithmetic.
-/

namespace RippledHooks

/-- Terminal transaction statuses (TER) reachable in the modelled code paths. -/
inductive TER where
  | tesSUCCESS
  | tecINSUFFICIENT_RESERVE
  | tecUNFUNDED
  | tecUNFUNDED_PAYMENT
  | tecNO_DST
  | tecDST_TAG_NEEDED
  | tecNO_TARGET
  | tecNO_PERMISSION
  | tecNO_ENTRY
  | tecDIR_FULL
  | tecINTERNAL
  | terNO_AUTH
  | terNO_ACCOUNT
  | tefINTERNAL
  | tefBAD_LEDGER
  | temMALFORMED
  | temBAD_AMOUNT
  | temBAD_CURRENCY
  | temDST_IS_SRC
  | temBAD_EXPIRATION
  | temBAD_SIGNATURE
  | temBAD_SIGNER
  | temINVALID_FLAG
  | temHOOK_DATA_TOO_LARGE
  deriving DecidableEq, Repr

/-- Mirror of the source's isTesSuccess predicate. -/
def TER.isTes : TER → Bool
  | TER.tesSUCCESS => true
  | _ => false

/-- Shallow model of STAmount: an XRP drops value or an IOU value.  The issue
(currency, issuer) of an IOU amount is abstracted away: in every modelled code
path amount arithmetic and comparison stay within a single currency, as the
source's STAmount operators require. -/
structure Amount where
  isXRP : Bool
  value : Int
  deriving DecidableEq, Repr

/-! ## Hook runtime (applyHook.cpp)

The WASM engine is external: a run of the guest is represented by the
exit type it left in the HookContext together with the final changedState
buffer (key, modified flag, data).  The default exit type when the guest
returns without calling accept/reject/rollback is ROLLBACK (applyHook.cpp
line 154), which is covered because the exit type ranges over all three. -/

/-- Exit disposition recorded in HookContext by accept/reject/rollback. -/
inductive ExitType where
  | ACCEPT
  | REJECT
  | ROLLBACK
  deriving DecidableEq, Repr

/-- External results consumed by hook::setHookState: success of the directory
primitives and the fee schedule. -/
structure HookEnv where
  dirRemoveOk : Bool
  dirAddOk : Bool
  accountReserve : Nat → Int

/-- The slice of the ledger that hook::setHookState touches: the owning
account (balance, ownerCount), the Hook entry (sfHookDataMaxSize,
sfHookStateCount) and the HookState entries keyed by 256-bit key (a 32-byte
list). -/
structure HookLedger where
  acctPresent : Bool
  balance : Int
  ownerCount : Nat
  hookPresent : Bool
  hookDataMaxSize : Nat
  hookStateCount : Nat
  states : List (List Nat × List Nat)
  deriving DecidableEq, Repr

/-- Modelled from the spec: the macro COMPUTE_HOOK_DATA_OWNER_COUNT lives in
applyHook.h, which is not under src.  Spec section 4.8 fixes it as a
deterministic piecewise function of the state-entry count of the shape
ceil(n / K); the granularity K = 5 matches the factor 5 the repository uses
in its other hook reserve formula, hookReserveCount =
ceil(len(createCode) / (5 * hookDataMaxSize)). -/
def COMPUTE_HOOK_DATA_OWNER_COUNT (n : Nat) : Nat := (n + 4) / 5

/-- hook::setHookState (applyHook.cpp lines 6-123).  Returns the terminal
status and the staged view.  Directory mutations are represented on the
states list; success of dirRemove/dirAdd comes from the environment.  Note
that on the delete path the source stores
COMPUTE_HOOK_DATA_OWNER_COUNT(stateCount) into sfHookStateCount (line 62),
while the insert path stores the raw incremented stateCount (line 93); the
embedding reproduces both verbatim. -/
def setHookState (env : HookEnv) (l : HookLedger) (key : List Nat) (data : List Nat) :
    TER × HookLedger :=
  if l.acctPresent = false then (TER.tefINTERNAL, l)
  else if l.hookPresent = false then (TER.tefINTERNAL, l)
  else if l.hookDataMaxSize < data.length then (TER.temHOOK_DATA_TOO_LARGE, l)
  else
    let stateCount := l.hookStateCount
    let oldStateReserve := COMPUTE_HOOK_DATA_OWNER_COUNT stateCount
    match l.states.find? (fun p => p.1 == key) with
    | none =>
      if data.length = 0 then
        -- a request to remove a non-existent entry is defined as success
        (TER.tesSUCCESS, l)
      else
        let stateCount1 := stateCount + 1
        if oldStateReserve < COMPUTE_HOOK_DATA_OWNER_COUNT stateCount1 then
          if l.balance < env.accountReserve (l.ownerCount + 1) then
            (TER.tecINSUFFICIENT_RESERVE, l)
          else
            let l1 := { l with ownerCount := l.ownerCount + 1,
                               hookStateCount := stateCount1,
                               states := l.states ++ [(key, data)] }
            if env.dirAddOk = false then (TER.tecDIR_FULL, l1) else (TER.tesSUCCESS, l1)
        else
          let l1 := { l with hookStateCount := stateCount1,
                             states := l.states ++ [(key, data)] }
          if env.dirAddOk = false then (TER.tecDIR_FULL, l1) else (TER.tesSUCCESS, l1)
    | some _ =>
      if data.length = 0 then
        if env.dirRemoveOk = false then (TER.tefBAD_LEDGER, l)
        else
          let l1 := { l with states := l.states.filter (fun p => !(p.1 == key)) }
          let stateCount1 := if 0 < stateCount then stateCount - 1 else stateCount
          let l2 :=
            if COMPUTE_HOOK_DATA_OWNER_COUNT stateCount1 < oldStateReserve then
              { l1 with ownerCount := l1.ownerCount - 1 }
            else l1
          (TER.tesSUCCESS, { l2 with hookStateCount := COMPUTE_HOOK_DATA_OWNER_COUNT stateCount1 })
      else
        -- blob replacement: erase then re-insert, no directory change
        (TER.tesSUCCESS, { l with states := (l.states.filter (fun p => !(p.1 == key))) ++ [(key, data)] })

/-- hook::commitChangesToLedger (applyHook.cpp lines 250-269): walk the
changedState buffer in its (deterministic map) order and apply every entry
marked modified through setHookState, discarding the returned status exactly
as the void source function does. -/
def commitChangesToLedger (env : HookEnv) (changed : List (List Nat × Bool × List Nat))
    (l : HookLedger) : HookLedger :=
  changed.foldl
    (fun acc entry => if entry.2.1 then (setHookState env acc entry.1 entry.2.2).2 else acc) l

/-- hook::apply (applyHook.cpp lines 134-204).  instantiateOk is the result of
wasmer_instantiate; exitType and changed are what the guest run left in the
HookContext.  The source commits the change buffer when the exit type is not
ROLLBACK (line 189) and returns tesSUCCESS exactly for ACCEPT (line 199),
terNO_AUTH otherwise. -/
def hookApply (env : HookEnv) (instantiateOk : Bool) (exitType : ExitType)
    (changed : List (List Nat × Bool × List Nat)) (l : HookLedger) : TER × HookLedger :=
  if instantiateOk = false then (TER.temMALFORMED, l)
  else
    let l1 := if exitType ≠ ExitType.ROLLBACK then commitChangesToLedger env changed l else l
    if exitType = ExitType.ACCEPT then (TER.tesSUCCESS, l1) else (TER.terNO_AUTH, l1)

/-- Return values of the set_state host API.  The numeric error constants are
defined in the hook API header, which is not under src, so they are modelled
symbolically; a successful call returns in_len. -/
inductive HostApiResult where
  | OUT_OF_BOUNDS
  | TOO_SMALL
  | INTERNAL_ERROR
  | TOO_BIG
  | ok (written : Nat)
  deriving DecidableEq, Repr

/-- hook_api::set_state (applyHook.cpp lines 218-247).  maxHookDataSize is the
global hook::maxHookDataSize() bound (declared in the header outside src) and
hookDataMaxSize the per-hook sfHookDataMaxSize field; hookPresent is whether
view.peek(hookCtx.hookKeylet) succeeds.  keyPtr, dataPtr and inLen are the
guest's u32 arguments; the source's bounds checks add them as uint32_t, so the
sums wrap modulo 2^32.  mem gives the byte at each linear-memory address, and
the raw pointer reads memory + keyPtr + i of the source are unwrapped host
pointer arithmetic. -/
def set_state (maxHookDataSize : Nat) (memoryLength : Nat) (hookPresent : Bool)
    (hookDataMaxSize : Nat) (mem : Nat → Nat) (keyPtr dataPtr inLen : Nat)
    (changed : List (List Nat × Bool × List Nat)) :
    HostApiResult × List (List Nat × Bool × List Nat) :=
  if memoryLength < (keyPtr + 32) % 2 ^ 32 ∨ memoryLength < (dataPtr + maxHookDataSize) % 2 ^ 32 then
    (HostApiResult.OUT_OF_BOUNDS, changed)
  else if inLen = 0 then (HostApiResult.TOO_SMALL, changed)
  else if hookPresent = false then (HostApiResult.INTERNAL_ERROR, changed)
  else if hookDataMaxSize < inLen then (HostApiResult.TOO_BIG, changed)
  else
    let key := (List.range 32).map (fun i => mem (keyPtr + i))
    let data := (List.range inLen).map (fun i => mem (dataPtr + i))
    (HostApiResult.ok inLen, (changed.filter (fun p => !(p.1 == key))) ++ [(key, true, data)])

/-! ## Payment channels (PayChan.cpp)

The ledger slice a paychan transactor touches is the channel entry itself and
the account entries, addressed here by AccountID as a Nat.  External
collaborators (trust-line engine calls, directory primitives, the deposit
preauthorization lookup, the fee schedule) enter through the Ext record of
results, matching the spec's DryRun/WetRun interface treatment. -/

/-- A PayChan ledger entry (spec section 3): owner, destination, total funded
amount, cumulative paid balance, settle delay, pinned public key, optional
cancelAfter and expiration, and the optional destination directory hint. -/
structure PayChanEntry where
  account : Nat
  destination : Nat
  amount : Amount
  balance : Amount
  settleDelay : Nat
  publicKey : Nat
  cancelAfter : Option Nat
  expiration : Option Nat
  destinationNode : Option Nat
  deriving DecidableEq, Repr

/-- An account root entry: existence, XRP balance in drops, owner count and
the two destination flags the claim paths read. -/
structure AccountRec where
  present : Bool
  balance : Int
  ownerCount : Nat
  lsfDisallowXRP : Bool
  lsfDepositAuth : Bool
  deriving DecidableEq, Repr

/-- The mutable view a paychan transactor works on: the channel under the
transaction's channel keylet, the account entries, and parentCloseTime. -/
structure Ledger where
  chan : Option PayChanEntry
  acct : Nat → AccountRec
  parentCloseTime : Nat

/-- Update one account entry in the view. -/
def updAcct (l : Ledger) (a : Nat) (f : AccountRec → AccountRec) : Ledger :=
  { l with acct := fun x => if x = a then f (l.acct x) else l.acct x }

/-- Results of the external collaborators and the active amendments, consumed
by the paychan transactors. -/
structure Ext where
  featureTokens : Bool
  featureFixRecipientDir : Bool
  featureDepositAuth : Bool
  accountReserve : Nat → Int
  closeDryResult : TER
  closeWetResult : TER
  fundDryResult : TER
  fundWetResult : TER
  claimTransferResult : TER
  dirRemoveOwnerOk : Bool
  dirRemoveDstOk : Bool
  depositPreauthExists : Bool

/-- The expiry sweep condition shared by PayChanFund and PayChanClaim
(PayChan.cpp lines 528-536 and 702-710): closeTime has reached cancelAfter or
the current expiration. -/
def chanElapsed (closeTime : Nat) (ch : PayChanEntry) : Bool :=
  (match ch.cancelAfter with | some ca => decide (ca ≤ closeTime) | none => false) ||
  (match ch.expiration with | some ex => decide (ex ≤ closeTime) | none => false)

/-- closeChannel (PayChan.cpp lines 115-211): dry-run the IOU refund, remove
the channel from the owner (and feature-gated destination) directory, refund
amount - balance to the owner, decrement the owner's ownerCount and erase the
entry.  On any failure the view is returned untouched. -/
def closeChannel (e : Ext) (l : Ledger) (ch : PayChanEntry) : TER × Ledger :=
  if ch.amount.isXRP = false ∧ e.featureTokens = false then (TER.tefINTERNAL, l)
  else if ch.amount.isXRP = false ∧ e.closeDryResult.isTes = false then (e.closeDryResult, l)
  else if e.dirRemoveOwnerOk = false then (TER.tefBAD_LEDGER, l)
  else if ch.destinationNode.isSome ∧ e.featureFixRecipientDir = true ∧ e.dirRemoveDstOk = false then
    (TER.tefBAD_LEDGER, l)
  else if (l.acct ch.account).present = false then (TER.tefINTERNAL, l)
  else if ch.amount.isXRP then
    (TER.tesSUCCESS,
      { updAcct l ch.account (fun a =>
          { a with balance := a.balance + (ch.amount.value - ch.balance.value),
                   ownerCount := a.ownerCount - 1 }) with chan := none })
  else if e.closeWetResult.isTes = false then (e.closeWetResult, l)
  else
    (TER.tesSUCCESS,
      { updAcct l ch.account (fun a => { a with ownerCount := a.ownerCount - 1 }) with
          chan := none })

/-- A PayChanFund transaction: sender, amount to add, optional new expiration. -/
structure FundTx where
  txAccount : Nat
  amount : Amount
  expiration : Option Nat
  deriving DecidableEq, Repr

/-- Tail of PayChanFund::doApply after the expiry sweep, owner check and
expiration handling (PayChan.cpp lines 556-610): destination and reserve
checks, then the funds movement and the channel amount increase. -/
def fundRest (e : Ext) (tx : FundTx) (l : Ledger) (ch : PayChanEntry) : TER × Ledger :=
  if (l.acct tx.txAccount).present = false then (TER.tefINTERNAL, l)
  else if (l.acct ch.destination).present = false then (TER.tecNO_DST, l)
  else if (l.acct tx.txAccount).balance < e.accountReserve (l.acct tx.txAccount).ownerCount then
    (TER.tecINSUFFICIENT_RESERVE, l)
  else if tx.amount.isXRP then
    if (l.acct tx.txAccount).balance
        < e.accountReserve (l.acct tx.txAccount).ownerCount + tx.amount.value then
      (TER.tecUNFUNDED, l)
    else
      (TER.tesSUCCESS,
        { updAcct l tx.txAccount (fun a => { a with balance := a.balance - tx.amount.value }) with
            chan := some { ch with amount := { ch.amount with value := ch.amount.value + tx.amount.value } } })
  else if e.featureTokens = false then (TER.tefINTERNAL, l)
  else if e.fundWetResult.isTes = false then (TER.tefINTERNAL, l)
  else
    (TER.tesSUCCESS,
      { l with chan := some { ch with amount := { ch.amount with value := ch.amount.value + tx.amount.value } } })

/-- The minExpiration computation of PayChanFund::doApply (PayChan.cpp lines
544-548): parentCloseTime + settleDelay, lowered to the channel's current
expiration when that is already earlier. -/
def expirationFloor (closeTime settleDelay : Nat) (cur : Option Nat) : Nat :=
  match cur with
  | some c => if c < closeTime + settleDelay then c else closeTime + settleDelay
  | none => closeTime + settleDelay

/-- PayChanFund::doApply (PayChan.cpp lines 485-611).  Order as in the source:
missing channel, the IOU locked-balance dry run, the expiry sweep via
closeChannel, the owner-only check, the expiration floor, then fundRest. -/
def payChanFundDoApply (e : Ext) (tx : FundTx) (l : Ledger) : TER × Ledger :=
  match l.chan with
  | none => (TER.tecNO_ENTRY, l)
  | some ch =>
    if tx.amount.isXRP = false ∧ e.featureTokens = true ∧ e.fundDryResult.isTes = false then
      (e.fundDryResult, l)
    else if chanElapsed l.parentCloseTime ch then closeChannel e l ch
    else if ch.account ≠ tx.txAccount then (TER.tecNO_PERMISSION, l)
    else
      match tx.expiration with
      | some ext =>
        if ext < expirationFloor l.parentCloseTime ch.settleDelay ch.expiration then
          (TER.temBAD_EXPIRATION, l)
        else
          fundRest e tx { l with chan := some { ch with expiration := some ext } }
            { ch with expiration := some ext }
      | none => fundRest e tx l ch

/-- A PayChanClaim transaction as seen by doApply: sender, optional new
cumulative balance, whether a signature is attached, the attached public key,
and the tfRenew/tfClose flags. -/
structure ClaimTx where
  txAccount : Nat
  balance : Option Amount
  sigPresent : Bool
  txPublicKey : Nat
  flagRenew : Bool
  flagClose : Bool
  deriving DecidableEq, Repr

/-- The tfClose step of PayChanClaim::doApply (PayChan.cpp lines 809-827).
curExpiration is the channel expiration captured before the tfRenew step. -/
def claimClose (e : Ext) (tx : ClaimTx) (l : Ledger) (ch : PayChanEntry)
    (curExpiration : Option Nat) : TER × Ledger :=
  if tx.flagClose then
    if ch.destination = tx.txAccount ∨ ch.balance = ch.amount then closeChannel e l ch
    else
      let settleExpiration := l.parentCloseTime + ch.settleDelay
      match curExpiration with
      | none => (TER.tesSUCCESS, { l with chan := some { ch with expiration := some settleExpiration } })
      | some cur =>
        if settleExpiration < cur then
          (TER.tesSUCCESS, { l with chan := some { ch with expiration := some settleExpiration } })
        else (TER.tesSUCCESS, l)
  else (TER.tesSUCCESS, l)

/-- The tfRenew step of PayChanClaim::doApply (PayChan.cpp lines 801-807),
followed by the tfClose step. -/
def claimFlags (e : Ext) (tx : ClaimTx) (l : Ledger) (ch : PayChanEntry)
    (curExpiration : Option Nat) : TER × Ledger :=
  if tx.flagRenew then
    if ch.account ≠ tx.txAccount then (TER.tecNO_PERMISSION, l)
    else
      claimClose e tx { l with chan := some { ch with expiration := none } }
        { ch with expiration := none } curExpiration
  else claimClose e tx l ch curExpiration

/-- PayChanClaim::doApply (PayChan.cpp lines 689-828).  Order as in the
source: missing channel, expiry sweep, owner-or-destination check, the
sfBalance block (signature checks, range checks, destination checks, credit
and balance store), then tfRenew and tfClose. -/
def payChanClaimDoApply (e : Ext) (tx : ClaimTx) (l : Ledger) : TER × Ledger :=
  match l.chan with
  | none => (TER.tecNO_TARGET, l)
  | some ch =>
    let curExpiration := ch.expiration
    if chanElapsed l.parentCloseTime ch then closeChannel e l ch
    else if tx.txAccount ≠ ch.account ∧ tx.txAccount ≠ ch.destination then
      (TER.tecNO_PERMISSION, l)
    else
      match tx.balance with
      | none => claimFlags e tx l ch curExpiration
      | some reqBalance =>
        if tx.txAccount = ch.destination ∧ tx.sigPresent = false then (TER.temBAD_SIGNATURE, l)
        else if tx.sigPresent = true ∧ tx.txPublicKey ≠ ch.publicKey then (TER.temBAD_SIGNER, l)
        else if ch.amount.value < reqBalance.value then (TER.tecUNFUNDED_PAYMENT, l)
        else if reqBalance.value ≤ ch.balance.value then
          -- nothing requested
          (TER.tecUNFUNDED_PAYMENT, l)
        else if (l.acct ch.destination).present = false then (TER.tecNO_DST, l)
        else if e.featureDepositAuth = false ∧
            (tx.txAccount = ch.account ∧ (l.acct ch.destination).lsfDisallowXRP = true) then
          (TER.tecNO_TARGET, l)
        else if e.featureDepositAuth = true ∧ (l.acct ch.destination).lsfDepositAuth = true ∧
            tx.txAccount ≠ ch.destination ∧ e.depositPreauthExists = false then
          (TER.tecNO_PERMISSION, l)
        else
          let ch1 := { ch with balance := reqBalance }
          let l1 := { l with chan := some ch1 }
          let delta := reqBalance.value - ch.balance.value
          if reqBalance.isXRP then
            claimFlags e tx
              (updAcct l1 ch.destination fun a => { a with balance := a.balance + delta })
              ch1 curExpiration
          else if e.featureTokens = false then (TER.tefINTERNAL, l1)
          else if e.claimTransferResult.isTes = false then (e.claimTransferResult, l1)
          else claimFlags e tx l1 ch1 curExpiration

/-- Context of PayChanCreate::preclaim (PayChan.cpp lines 263-347): the
payer's account root, the transaction amount, amendments, the two trust-line
engine results and the destination account's state. -/
structure CreatePreclaimCtx where
  accountPresent : Bool
  balance : Int
  ownerCount : Nat
  accountReserve : Nat → Int
  amount : Amount
  featureTokens : Bool
  featureDepositAuth : Bool
  trustTransferAllowedResult : TER
  trustAdjustDryResult : TER
  dstPresent : Bool
  dstRequireDestTag : Bool
  txHasDestTag : Bool
  dstDisallowXRP : Bool

/-- PayChanCreate::preclaim (PayChan.cpp lines 263-347).  Note the source's
branch shape: the tecUNFUNDED test fires only for underfunded XRP amounts,
and every other case — including a sufficiently funded XRP amount — falls
into the else branch holding the token checks (lines 283-328), before the
destination checks run. -/
def payChanCreatePreclaim (c : CreatePreclaimCtx) : TER :=
  if c.accountPresent = false then TER.terNO_ACCOUNT
  else
    let reserve := c.accountReserve (c.ownerCount + 1)
    if c.balance < reserve then TER.tecINSUFFICIENT_RESERVE
    else if c.amount.isXRP = true ∧ c.balance < reserve + c.amount.value then TER.tecUNFUNDED
    else if c.featureTokens = false then TER.tecINTERNAL
    else if c.trustTransferAllowedResult.isTes = false then c.trustTransferAllowedResult
    else if c.trustAdjustDryResult.isTes = false then c.trustAdjustDryResult
    else if c.dstPresent = false then TER.tecNO_DST
    else if c.dstRequireDestTag = true ∧ c.txHasDestTag = false then TER.tecDST_TAG_NEEDED
    else if c.featureDepositAuth = false ∧ c.dstDisallowXRP = true then TER.tecNO_TARGET
    else TER.tesSUCCESS

/-- Outcome of a preflight run: a terminal status, or undefined behaviour when
the source evaluates an expression with no defined C++ semantics. -/
inductive PreflightOutcome where
  | undefinedBehavior
  | ret (t : TER)
  deriving DecidableEq, Repr

/-- Context of PayChanClaim::preflight (PayChan.cpp lines 615-687): the
optional Balance and Amount fields, presence of Signature and PublicKey, the
flag bits, amendments, and the external publicKeyType/verify results. -/
structure ClaimPreflightCtx where
  preflight1Result : TER
  preflight2Result : TER
  bal : Option Amount
  amt : Option Amount
  sigPresent : Bool
  pkPresent : Bool
  flagClose : Bool
  flagRenew : Bool
  flagsOutsideMask : Bool
  fix1543 : Bool
  featureTokens : Bool
  publicKeyTypeKnown : Bool
  verifyOk : Bool

/-- The per-field validation applied by PayChanClaim::preflight to each of
the optional Balance and Amount fields (PayChan.cpp lines 621-640): a present
amount is rejected when it is an IOU without the token amendment, or when it
is not positive. -/
def optAmountBad (featureTokens : Bool) : Option Amount → Bool
  | some a => (!a.isXRP && !featureTokens) || decide (a.value ≤ 0)
  | none => false

/-- The `bal && amt && *bal > *amt` test of PayChanClaim::preflight
(PayChan.cpp line 642). -/
def balExceedsAmt : Option Amount → Option Amount → Bool
  | some b, some a => decide (a.value < b.value)
  | _, _ => false

/-- PayChanClaim::preflight (PayChan.cpp lines 615-687).  The authorized
amount is computed by the source as `*amt ? *amt : reqBalance` (line 665):
when the optional Amount field is disengaged this dereferences an empty
std::optional, which has no defined behaviour, modelled as the
undefinedBehavior outcome; when Amount is present, the STAmount bool
conversion tests it against zero. -/
def payChanClaimPreflight (c : ClaimPreflightCtx) : PreflightOutcome :=
  if c.preflight1Result.isTes = false then PreflightOutcome.ret c.preflight1Result
  else if optAmountBad c.featureTokens c.bal then PreflightOutcome.ret TER.temBAD_AMOUNT
  else if optAmountBad c.featureTokens c.amt then PreflightOutcome.ret TER.temBAD_AMOUNT
  else if balExceedsAmt c.bal c.amt then PreflightOutcome.ret TER.temBAD_AMOUNT
  else if c.fix1543 = true ∧ c.flagsOutsideMask = true then PreflightOutcome.ret TER.temINVALID_FLAG
  else if c.flagClose = true ∧ c.flagRenew = true then PreflightOutcome.ret TER.temMALFORMED
  else if c.sigPresent then
    if c.pkPresent = false ∨ c.bal.isNone then PreflightOutcome.ret TER.temMALFORMED
    else
      match c.bal with
      | none => PreflightOutcome.ret TER.temMALFORMED
      | some reqBalance =>
        match c.amt with
        | none => PreflightOutcome.undefinedBehavior
        | some a =>
          let authAmt := if a.value ≠ 0 then a else reqBalance
          if authAmt.value < reqBalance.value then PreflightOutcome.ret TER.temBAD_AMOUNT
          else if c.publicKeyTypeKnown = false then PreflightOutcome.ret TER.temMALFORMED
          else if c.verifyOk = false then PreflightOutcome.ret TER.temBAD_SIGNATURE
          else PreflightOutcome.ret c.preflight2Result
  else PreflightOutcome.ret c.preflight2Result

/-! ## SetHook (SetHook.cpp) -/

/-- Ledger entry types distinguished by the bulk teardown iterator. -/
inductive LedgerEntryType where
  | ltHOOK_STATE
  | ltHOOK
  | ltOTHER
  deriving DecidableEq, Repr

/-- A Hook ledger entry as written by SetHook::setHook (SetHook.cpp lines
237-246). -/
structure HookEntry where
  createCode : List Nat
  stateCount : Nat
  reserveCount : Nat
  dataMaxSize : Nat
  hookOn : Nat
  deriving DecidableEq, Repr

/-- The ledger slice SetHook touches: the sending account (mPriorBalance,
ownerCount), its optional Hook entry, and its owner directory as the list of
(entry type, key) pairs it references; every directory entry is backed by a
live object, as the source's tefBAD_LEDGER guards otherwise abort. -/
structure SetHookLedger where
  acctPresent : Bool
  priorBalance : Int
  ownerCount : Nat
  hook : Option HookEntry
  ownerDir : List (LedgerEntryType × Nat)
  deriving DecidableEq, Repr

/-- External dependencies of SetHook: the global hook::maxHookDataSize()
constant (declared in a header outside src; spec scenario 5 instantiates it
as 128), the fee schedule, and directory primitive success. -/
structure SetHookEnv where
  maxHookDataSize : Nat
  accountReserve : Int → Int
  dirRemoveOk : Bool
  dirAddOk : Bool

/-- SetHook::destroyEntireHookState (SetHook.cpp lines 97-166): iterate the
owner directory and, for every entry of type ltHOOK_STATE, remove it from the
directory and erase the backing object.  Iteration under concurrent removal
is modelled as one pass over the snapshot of the directory entries (spec
section 9); dirRemove is assumed to succeed and every entry to be backed, the
source's tefBAD_LEDGER/tefINTERNAL guards otherwise.  The source adjusts
neither the account's ownerCount nor any state counter on this path. -/
def destroyEntireHookState (l : SetHookLedger) : TER × SetHookLedger :=
  if l.ownerDir = [] then (TER.tesSUCCESS, l)
  else
    (TER.tesSUCCESS,
      { l with ownerDir := l.ownerDir.filter (fun p => !(p.1 == LedgerEntryType.ltHOOK_STATE)) })

/-- SetHook::removeHookFromLedger (SetHook.cpp lines 272-299): succeed
silently when no Hook entry exists, otherwise remove it from the owner
directory and erase it. -/
def removeHookFromLedger (env : SetHookEnv) (l : SetHookLedger) : TER × SetHookLedger :=
  match l.hook with
  | none => (TER.tesSUCCESS, l)
  | some _ =>
    if env.dirRemoveOk = false then (TER.tefBAD_LEDGER, l)
    else
      (TER.tesSUCCESS,
        { l with hook := none,
                 ownerDir := l.ownerDir.filter (fun p => !(p.1 == LedgerEntryType.ltHOOK)) })

/-- The reserve-unit computation of SetHook::setHook (SetHook.cpp line 192):
std::ceil(size / (5.0 * blobMax)), written as exact natural ceiling division
(the double computation is exact for the representable sizes involved). -/
def hookReserveUnits (codeLen blobMax : Nat) : Nat :=
  (codeLen + 5 * blobMax - 1) / (5 * blobMax)

/-- A SetHook transaction: the CreateCode blob and the HookOn mask. -/
structure SetHookTxn where
  createCode : List Nat
  hookOn : Nat
  deriving DecidableEq, Repr

/-- SetHook::setHook (SetHook.cpp lines 168-270).  Empty code with no current
Hook dispatches to the bulk state teardown; otherwise any existing Hook is
removed, the reserve is re-checked at ownerCount + (new - previous) units, a
new Hook entry carrying the preserved hookStateCount is inserted and
registered for non-empty code, and ownerCount is adjusted by the signed unit
difference. -/
def setHook (env : SetHookEnv) (tx : SetHookTxn) (l : SetHookLedger) : TER × SetHookLedger :=
  let blobMax := env.maxHookDataSize
  let stateCount := match l.hook with | some h => h.stateCount | none => 0
  let previousReserveUnits : Int := match l.hook with | some h => (h.reserveCount : Int) | none => 0
  let newReserveUnits : Int := (hookReserveUnits tx.createCode.length blobMax : Int)
  if tx.createCode = [] ∧ l.hook = none then destroyEntireHookState l
  else
    let rem := removeHookFromLedger env l
    if rem.1.isTes = false then rem
    else
      let l1 := rem.2
      if l1.acctPresent = false then (TER.tefINTERNAL, l1)
      else
        let addedOwnerCount : Int := newReserveUnits - previousReserveUnits
        let newReserve := env.accountReserve ((l1.ownerCount : Int) + addedOwnerCount)
        if l1.priorBalance < newReserve then (TER.tecINSUFFICIENT_RESERVE, l1)
        else if tx.createCode ≠ [] then
          let l2 :=
            { l1 with
                hook := some { createCode := tx.createCode, stateCount := stateCount,
                               reserveCount := newReserveUnits.toNat, dataMaxSize := blobMax,
                               hookOn := tx.hookOn },
                ownerDir := l1.ownerDir ++ [(LedgerEntryType.ltHOOK, 0)] }
          if env.dirAddOk = false then (TER.tecDIR_FULL, l2)
          else
            (TER.tesSUCCESS,
              { l2 with ownerCount := ((l2.ownerCount : Int) + addedOwnerCount).toNat })
        else
          (TER.tesSUCCESS,
            { l1 with ownerCount := ((l1.ownerCount : Int) + addedOwnerCount).toNat })

/-! ## Concrete instances used by the claim theorems and witnesses -/

/-- A hook environment where both directory primitives succeed and the fee
schedule charges 200000 drops per owner-count unit (spec scenario 1 values). -/
def hookEnvOk : HookEnv :=
  { dirRemoveOk := true, dirAddOk := true, accountReserve := fun n => 200000 * (n : Int) }

/-- A hook ledger with an installed hook and no state entries yet. -/
def c1Ledger : HookLedger :=
  { acctPresent := true, balance := 1000000, ownerCount := 1, hookPresent := true,
    hookDataMaxSize := 128, hookStateCount := 5, states := [] }

/-- A hook ledger whose hook owns five state entries (hookStateCount = 5), one
of them at key [9]. -/
def c3Ledger : HookLedger :=
  { acctPresent := true, balance := 1000000, ownerCount := 2, hookPresent := true,
    hookDataMaxSize := 128, hookStateCount := 5, states := [([9], [1, 2, 3])] }

/-- An account map where every account exists, funded and unflagged. -/
def acctAllPresent : Nat → AccountRec := fun _ =>
  { present := true, balance := 1000000, ownerCount := 1,
    lsfDisallowXRP := false, lsfDepositAuth := false }

/-- External results where every collaborator succeeds and every amendment is
active. -/
def extOk : Ext :=
  { featureTokens := true, featureFixRecipientDir := true, featureDepositAuth := true,
    accountReserve := fun n => 200000 * (n : Int), closeDryResult := TER.tesSUCCESS,
    closeWetResult := TER.tesSUCCESS, fundDryResult := TER.tesSUCCESS,
    fundWetResult := TER.tesSUCCESS, claimTransferResult := TER.tesSUCCESS,
    dirRemoveOwnerOk := true, dirRemoveDstOk := true, depositPreauthExists := true }

/-- Externals for the C6 counterexample: the locked-balance dry run performed
by PayChanFund::doApply before the expiry sweep fails (e.g. no trust line;
DryRun returns the same terminal status a WetRun would, spec section 2). -/
def c6Env : Ext := { extOk with fundDryResult := TER.tecINTERNAL }

/-- An IOU channel whose cancelAfter (100) has elapsed at parentCloseTime 200. -/
def c6Chan : PayChanEntry :=
  { account := 1, destination := 2, amount := { isXRP := false, value := 100 },
    balance := { isXRP := false, value := 40 }, settleDelay := 3600, publicKey := 5,
    cancelAfter := some 100, expiration := none, destinationNode := none }

/-- The view holding c6Chan at parentCloseTime 200. -/
def c6Ledger : Ledger := { chan := some c6Chan, acct := acctAllPresent, parentCloseTime := 200 }

/-- A fund of 50 IOU units sent by the channel owner. -/
def c6Tx : FundTx := { txAccount := 1, amount := { isXRP := false, value := 50 }, expiration := none }

/-- An elapsed XRP channel for the C6 witness. -/
def wfChan : PayChanEntry :=
  { account := 1, destination := 2, amount := { isXRP := true, value := 100000 },
    balance := { isXRP := true, value := 40000 }, settleDelay := 3600, publicKey := 5,
    cancelAfter := some 100, expiration := none, destinationNode := none }

/-- The view holding wfChan at parentCloseTime 200. -/
def wfLedger : Ledger := { chan := some wfChan, acct := acctAllPresent, parentCloseTime := 200 }

/-- An XRP fund attempt by a third party (account 3, neither owner nor
destination). -/
def wfTx : FundTx := { txAccount := 3, amount := { isXRP := true, value := 500 }, expiration := none }

/-- An open XRP channel with amount 100 and balance 40. -/
def c7Chan : PayChanEntry :=
  { account := 1, destination := 2, amount := { isXRP := true, value := 100 },
    balance := { isXRP := true, value := 40 }, settleDelay := 3600, publicKey := 5,
    cancelAfter := none, expiration := none, destinationNode := none }

/-- The view holding c7Chan at parentCloseTime 200. -/
def c7Ledger : Ledger := { chan := some c7Chan, acct := acctAllPresent, parentCloseTime := 200 }

/-- An owner-initiated claim requesting balance 150, above the channel amount. -/
def c7Tx : ClaimTx :=
  { txAccount := 1, balance := some { isXRP := true, value := 150 }, sigPresent := false,
    txPublicKey := 0, flagRenew := false, flagClose := false }

/-- An open XRP channel with no expiration set and settleDelay 3600. -/
def c8Chan : PayChanEntry :=
  { account := 1, destination := 2, amount := { isXRP := true, value := 100000 },
    balance := { isXRP := true, value := 0 }, settleDelay := 3600, publicKey := 5,
    cancelAfter := none, expiration := none, destinationNode := none }

/-- The view holding c8Chan at parentCloseTime 200. -/
def c8Ledger : Ledger := { chan := some c8Chan, acct := acctAllPresent, parentCloseTime := 200 }

/-- An owner fund supplying expiration 4000, above the floor 200 + 3600. -/
def c8Tx : FundTx :=
  { txAccount := 1, amount := { isXRP := true, value := 500 }, expiration := some 4000 }

/-- An account with ownerCount 1 (the allotment its three HookState entries
consumed), three HookState entries in its owner directory and no Hook entry. -/
def c5Ledger : SetHookLedger :=
  { acctPresent := true, priorBalance := 5000000, ownerCount := 1, hook := none,
    ownerDir := [(LedgerEntryType.ltHOOK_STATE, 11), (LedgerEntryType.ltHOOK_STATE, 12),
                 (LedgerEntryType.ltHOOK_STATE, 13)] }

/-- A SetHook environment with succeeding directory primitives. -/
def setHookEnvOk : SetHookEnv :=
  { maxHookDataSize := 128, accountReserve := fun n => 200000 * n,
    dirRemoveOk := true, dirAddOk := true }

/-! ## Helper lemmas -/

/-- isTesSuccess holds exactly for tesSUCCESS. -/
theorem TER.isTes_iff (t : TER) : t.isTes = true ↔ t = TER.tesSUCCESS := by
  cases t <;> simp [TER.isTes]

/-- closeChannel either succeeds and erases the channel or fails and leaves
the view untouched, and it never lowers any account's XRP balance (the owner
is credited the non-negative refund; everyone else is untouched). -/
theorem closeChannel_cases (e : Ext) (l : Ledger) (ch : PayChanEntry)
    (hbal : ch.balance.value ≤ ch.amount.value) (acc : Nat) :
    ((closeChannel e l ch).1 = TER.tesSUCCESS → (closeChannel e l ch).2.chan = none) ∧
    ((closeChannel e l ch).1 ≠ TER.tesSUCCESS → (closeChannel e l ch).2 = l) ∧
    (l.acct acc).balance ≤ ((closeChannel e l ch).2.acct acc).balance := by
  unfold closeChannel
  split_ifs with h1 h2 h3 h4 h5 h6 h7
  · refine ⟨?_, fun _ => rfl, le_refl _⟩
    intro h
    exact absurd h (by decide)
  · refine ⟨?_, fun _ => rfl, le_refl _⟩
    intro h
    obtain ⟨hx, hy⟩ := h2
    rw [show e.closeDryResult = TER.tesSUCCESS from h] at hy
    simp [TER.isTes] at hy
  · refine ⟨?_, fun _ => rfl, le_refl _⟩
    intro h
    exact absurd h (by decide)
  · refine ⟨?_, fun _ => rfl, le_refl _⟩
    intro h
    exact absurd h (by decide)
  · refine ⟨?_, fun _ => rfl, le_refl _⟩
    intro h
    exact absurd h (by decide)
  · refine ⟨fun _ => rfl, fun h => absurd rfl h, ?_⟩
    by_cases hac : acc = ch.account
    · simp [updAcct, hac]
      omega
    · simp [updAcct, hac]
  · refine ⟨?_, fun _ => rfl, le_refl _⟩
    intro h
    rw [show e.closeWetResult = TER.tesSUCCESS from h] at h7
    simp [TER.isTes] at h7
  · refine ⟨fun _ => rfl, fun h => absurd rfl h, ?_⟩
    by_cases hac : acc = ch.account
    · simp [updAcct, hac]
    · simp [updAcct, hac]

/-- After the tail of PayChanFund::doApply the view's channel is either the
channel it was handed or that channel with its amount increased by the fund. -/
theorem fundRest_chan_shape (e : Ext) (tx : FundTx) (l : Ledger) (ch : PayChanEntry)
    (hl : l.chan = some ch) :
    (fundRest e tx l ch).2.chan = some ch ∨
    (fundRest e tx l ch).2.chan
      = some { ch with amount := { ch.amount with value := ch.amount.value + tx.amount.value } } := by
  unfold fundRest
  split_ifs <;> first | exact Or.inl hl | exact Or.inr rfl

/-! ## Claim theorems -/

/-- C1 counterexample: a hook run that exits with REJECT and a modified
change-buffer entry.  hook::apply commits the buffer (the staged state list
goes from empty to holding the entry) even though the exit type is not
ACCEPT, and the transaction fails with terNO_AUTH; this refutes the claim
that modifications are applied only if exitType is ACCEPT and that the
buffer is discarded on REJECT. -/
theorem hookApply_reject_commits :
    (hookApply hookEnvOk true ExitType.REJECT [([1], true, [7])] c1Ledger).2.states
      = [([1], [7])] ∧
    c1Ledger.states = [] ∧
    (hookApply hookEnvOk true ExitType.REJECT [([1], true, [7])] c1Ledger).1 = TER.terNO_AUTH :=
  ⟨rfl, rfl, rfl⟩

/-- C1 (amended): for every instantiated hook run, change-buffer
modifications are applied to the ledger iff the exit type is not ROLLBACK —
ACCEPT and REJECT both commit via commitChangesToLedger, ROLLBACK discards
the buffer — and the surrounding transaction succeeds iff the exit type is
ACCEPT, failing with terNO_AUTH on REJECT and ROLLBACK. -/
theorem hookApply_commit_unless_rollback (env : HookEnv) (et : ExitType)
    (changed : List (List Nat × Bool × List Nat)) (l : HookLedger) :
    hookApply env true et changed l =
      ((if et = ExitType.ACCEPT then TER.tesSUCCESS else TER.terNO_AUTH),
       (if et = ExitType.ROLLBACK then l else commitChangesToLedger env changed l)) := by
  cases et <;> rfl

/-- C2: a PayChanCreate preclaim for an XRP amount of 100000 drops by an
account with balance 1000000 and reserve(1) = 200000 — comfortably above
reserve + amount — against a valid destination.  The claim (and spec
scenario 1) expect tesSUCCESS, but the source's else branch (PayChan.cpp
lines 285-328) routes every adequately funded XRP create through the token
checks, which return tecINTERNAL when featurePaychanAndEscrowForTokens is
not enabled. -/
theorem payChanCreatePreclaim_wellFunded_xrp_tecINTERNAL :
    payChanCreatePreclaim
      { accountPresent := true, balance := 1000000, ownerCount := 0,
        accountReserve := fun n => 200000 * (n : Int),
        amount := { isXRP := true, value := 100000 },
        featureTokens := false, featureDepositAuth := true,
        trustTransferAllowedResult := TER.tesSUCCESS, trustAdjustDryResult := TER.tesSUCCESS,
        dstPresent := true, dstRequireDestTag := false, txHasDestTag := false,
        dstDisallowXRP := false } = TER.tecINTERNAL := by
  rfl

/-- C3: deleting an existing HookState entry from a hook whose stored
hookStateCount is 5.  The deletion succeeds and the entry is erased, but the
source stores COMPUTE_HOOK_DATA_OWNER_COUNT(4) = 1 into sfHookStateCount
(applyHook.cpp line 62) instead of the decremented count 4 that the claim
(and the insert path at line 93) require. -/
theorem setHookState_delete_misstores_count :
    (setHookState hookEnvOk c3Ledger [9] []).1 = TER.tesSUCCESS ∧
    (setHookState hookEnvOk c3Ledger [9] []).2.states = [] ∧
    (setHookState hookEnvOk c3Ledger [9] []).2.hookStateCount = 1 :=
  ⟨rfl, rfl, rfl⟩

/-- C4 counterexample: a set_state call with dataLen = 0 and in-bounds
pointers on an empty change buffer.  The call returns the TOO_SMALL error
and stages nothing, refuting the claim that it stages a deletion and that it
is a successful no-op when no prior entry exists. -/
theorem set_state_zero_length_counterexample :
    set_state 128 65536 true 128 (fun _ => 0) 0 100 0 [] = (HostApiResult.TOO_SMALL, []) :=
  rfl

/-- C4 (amended): every set_state call with dataLen = 0 that passes the
bounds checks returns TOO_SMALL and leaves the change buffer untouched; a
deletion can therefore never be staged through set_state. -/
theorem set_state_zero_length_rejected (maxHDS memLen : Nat) (hookPresent : Bool) (hds : Nat)
    (mem : Nat → Nat) (keyPtr dataPtr : Nat) (changed : List (List Nat × Bool × List Nat))
    (hk : (keyPtr + 32) % 2 ^ 32 ≤ memLen) (hd : (dataPtr + maxHDS) % 2 ^ 32 ≤ memLen) :
    set_state maxHDS memLen hookPresent hds mem keyPtr dataPtr 0 changed
      = (HostApiResult.TOO_SMALL, changed) := by
  have h1 : ¬ (memLen < (keyPtr + 32) % 2 ^ 32 ∨ memLen < (dataPtr + maxHDS) % 2 ^ 32) := by
    push_neg
    exact ⟨hk, hd⟩
  unfold set_state
  rw [if_neg h1]
  rfl

/-- Witness for C4: the amended statement evaluated at a concrete in-bounds
call with a non-empty prior buffer. -/
theorem set_state_zero_length_rejected_witness :
    set_state 128 65536 true 128 (fun _ => 0) 8 100 0 [([3], true, [4])]
      = (HostApiResult.TOO_SMALL, [([3], true, [4])]) :=
  set_state_zero_length_rejected 128 65536 true 128 (fun _ => 0) 8 100 [([3], true, [4])]
    (by decide) (by decide)

/-- C5: SetHook with empty createCode on an account holding three HookState
entries and no Hook.  The teardown succeeds, erases all three directory
entries and creates no Hook — but it leaves ownerCount at 1, the allotment
those entries consumed, because destroyEntireHookState never calls
adjustOwnerCount; the claim (and spec scenario 6) require the decrement. -/
theorem setHook_teardown_keeps_ownerCount :
    setHook setHookEnvOk { createCode := [], hookOn := 0 } c5Ledger
      = (TER.tesSUCCESS, { c5Ledger with ownerDir := [] }) ∧
    (setHook setHookEnvOk { createCode := [], hookOn := 0 } c5Ledger).2.ownerCount
      = c5Ledger.ownerCount :=
  ⟨rfl, rfl⟩

/-- C9: a PayChanClaim preflight with Signature and PublicKey present, a
Balance of 40000 XRP drops, and no Amount field.  The source computes the
authorized amount as `*amt ? *amt : reqBalance` (PayChan.cpp line 665),
dereferencing the disengaged optional — undefined behaviour — instead of
defaulting the authorized amount to the Balance field as the claim states. -/
theorem payChanClaimPreflight_amount_absent_ub :
    payChanClaimPreflight
      { preflight1Result := TER.tesSUCCESS, preflight2Result := TER.tesSUCCESS,
        bal := some { isXRP := true, value := 40000 }, amt := none,
        sigPresent := true, pkPresent := true, flagClose := false, flagRenew := false,
        flagsOutsideMask := false, fix1543 := true, featureTokens := false,
        publicKeyTypeKnown := true, verifyOk := true }
      = PreflightOutcome.undefinedBehavior :=
  rfl

/-- C10 counterexample: keyPtr = 2^32 - 16 with a 65536-byte linear memory.
Mathematically keyPtr + 32 far exceeds the memory length, but the source's
uint32 addition wraps to 16, the bounds check passes, and the call proceeds
to stage data (reading the key through an out-of-bounds host pointer)
instead of returning OUT_OF_BOUNDS. -/
theorem set_state_wrapped_bounds_counterexample :
    65536 < 2 ^ 32 - 16 + 32 ∧
    (set_state 128 65536 true 128 (fun _ => 0) (2 ^ 32 - 16) 0 32 []).1 = HostApiResult.ok 32 :=
  ⟨by decide, rfl⟩

/-- C10 (amended): set_state returns OUT_OF_BOUNDS exactly when
(keyPtr + 32) mod 2^32 or (dataPtr + maxHookDataSize) mod 2^32 exceeds the
memory length — the checks are computed in wrapping 32-bit arithmetic — and
in that case nothing is staged.  In particular a call whose dataLen bytes
lie inside memory is still rejected when dataPtr is within maxHookDataSize
of the end, but a keyPtr within 32 of 2^32 slips past the check. -/
theorem set_state_oob_iff_wrapped (maxHDS memLen : Nat) (hookPresent : Bool) (hds : Nat)
    (mem : Nat → Nat) (keyPtr dataPtr inLen : Nat)
    (changed : List (List Nat × Bool × List Nat)) :
    ((set_state maxHDS memLen hookPresent hds mem keyPtr dataPtr inLen changed).1
        = HostApiResult.OUT_OF_BOUNDS ↔
      (memLen < (keyPtr + 32) % 2 ^ 32 ∨ memLen < (dataPtr + maxHDS) % 2 ^ 32)) ∧
    ((memLen < (keyPtr + 32) % 2 ^ 32 ∨ memLen < (dataPtr + maxHDS) % 2 ^ 32) →
      set_state maxHDS memLen hookPresent hds mem keyPtr dataPtr inLen changed
        = (HostApiResult.OUT_OF_BOUNDS, changed)) := by
  unfold set_state
  refine ⟨⟨?_, fun h => by rw [if_pos h]⟩, fun h => by rw [if_pos h]⟩
  intro h
  by_contra hc
  rw [if_neg hc] at h
  split_ifs at h

/-- Witness for C10: the amended statement's rejection branch evaluated at a
concrete out-of-bounds call. -/
theorem set_state_oob_iff_wrapped_witness :
    set_state 128 100 true 128 (fun _ => 0) 200 0 5 [] = (HostApiResult.OUT_OF_BOUNDS, []) :=
  (set_state_oob_iff_wrapped 128 100 true 128 (fun _ => 0) 200 0 5 []).2 (Or.inl (by decide))

/-- C6 counterexample: an IOU fund on a channel whose cancelAfter has elapsed,
in an environment where the locked-balance dry run fails.  The dry run is
performed before the expiry sweep (PayChan.cpp lines 499-523), so the fund
returns the dry-run error and the channel is left open instead of being
closed, refuting the claim that every fund on an elapsed channel closes it. -/
theorem payChanFund_elapsed_left_open :
    chanElapsed c6Ledger.parentCloseTime c6Chan = true ∧
    payChanFundDoApply c6Env c6Tx c6Ledger = (TER.tecINTERNAL, c6Ledger) ∧
    c6Ledger.chan = some c6Chan :=
  ⟨rfl, rfl, rfl⟩

/-- C6 (amended): for every PayChanFund on an elapsed channel whose
pre-sweep IOU dry run does not intervene (the amount is XRP, or the dry run
succeeds), the fund takes the close path regardless of the sender: the
outcome is exactly closeChannel, which either succeeds erasing the channel
or fails leaving the view untouched; in neither case is the funder's amount
deducted from any balance. -/
theorem payChanFund_elapsed_closes (e : Ext) (tx : FundTx) (l : Ledger) (ch : PayChanEntry)
    (hch : l.chan = some ch)
    (helapsed : chanElapsed l.parentCloseTime ch = true)
    (hdry : tx.amount.isXRP = true ∨ e.fundDryResult = TER.tesSUCCESS)
    (hbal : ch.balance.value ≤ ch.amount.value) :
    payChanFundDoApply e tx l = closeChannel e l ch ∧
    ((closeChannel e l ch).1 = TER.tesSUCCESS → (closeChannel e l ch).2.chan = none) ∧
    ((closeChannel e l ch).1 ≠ TER.tesSUCCESS → (closeChannel e l ch).2 = l) ∧
    (l.acct tx.txAccount).balance ≤ ((closeChannel e l ch).2.acct tx.txAccount).balance := by
  have hnd : ¬ (tx.amount.isXRP = false ∧ e.featureTokens = true ∧ e.fundDryResult.isTes = false) := by
    rcases hdry with h | h
    · rintro ⟨hx, -, -⟩
      rw [h] at hx
      cases hx
    · rintro ⟨-, -, hx⟩
      rw [h] at hx
      simp [TER.isTes] at hx
  have h1 : payChanFundDoApply e tx l = closeChannel e l ch := by
    simp only [payChanFundDoApply, hch]
    rw [if_neg hnd, if_pos helapsed]
  obtain ⟨a, b, c⟩ := closeChannel_cases e l ch hbal tx.txAccount
  exact ⟨h1, a, b, c⟩

/-- Witness for C6: the amended statement evaluated at a concrete elapsed
XRP channel funded by a third party. -/
theorem payChanFund_elapsed_closes_witness :
    payChanFundDoApply extOk wfTx wfLedger = closeChannel extOk wfLedger wfChan ∧
    ((closeChannel extOk wfLedger wfChan).1 = TER.tesSUCCESS →
      (closeChannel extOk wfLedger wfChan).2.chan = none) ∧
    ((closeChannel extOk wfLedger wfChan).1 ≠ TER.tesSUCCESS →
      (closeChannel extOk wfLedger wfChan).2 = wfLedger) ∧
    (wfLedger.acct wfTx.txAccount).balance
      ≤ ((closeChannel extOk wfLedger wfChan).2.acct wfTx.txAccount).balance :=
  payChanFund_elapsed_closes extOk wfTx wfLedger wfChan rfl rfl (Or.inl rfl) (by decide)

/-- C7: for every PayChanClaim carrying a Balance against an open channel
that passes the caller and signature checks (sender is owner or destination,
destination claims carry a signature, an attached public key matches the
channel's), a requested balance at most the channel balance or above the
channel amount yields tecUNFUNDED_PAYMENT with the view unchanged, and a
claim can succeed only when chanBalance < balance ≤ chanAmount. -/
theorem payChanClaim_balance_range (e : Ext) (tx : ClaimTx) (l : Ledger) (ch : PayChanEntry)
    (reqBalance : Amount)
    (hch : l.chan = some ch)
    (hopen : chanElapsed l.parentCloseTime ch = false)
    (hbal : tx.balance = some reqBalance)
    (hperm : tx.txAccount = ch.account ∨ tx.txAccount = ch.destination)
    (hsig1 : tx.txAccount = ch.destination → tx.sigPresent = true)
    (hsig2 : tx.sigPresent = true → tx.txPublicKey = ch.publicKey) :
    ((reqBalance.value ≤ ch.balance.value ∨ ch.amount.value < reqBalance.value) →
      payChanClaimDoApply e tx l = (TER.tecUNFUNDED_PAYMENT, l)) ∧
    ((payChanClaimDoApply e tx l).1 = TER.tesSUCCESS →
      ch.balance.value < reqBalance.value ∧ reqBalance.value ≤ ch.amount.value) := by
  have hp : ¬ (tx.txAccount ≠ ch.account ∧ tx.txAccount ≠ ch.destination) := by
    rcases hperm with h | h
    · rintro ⟨hx, -⟩
      exact hx h
    · rintro ⟨-, hx⟩
      exact hx h
  have hs1 : ¬ (tx.txAccount = ch.destination ∧ tx.sigPresent = false) := by
    rintro ⟨ha, hb⟩
    rw [hsig1 ha] at hb
    cases hb
  have hs2 : ¬ (tx.sigPresent = true ∧ tx.txPublicKey ≠ ch.publicKey) := by
    rintro ⟨ha, hb⟩
    exact hb (hsig2 ha)
  have hpart1 : (reqBalance.value ≤ ch.balance.value ∨ ch.amount.value < reqBalance.value) →
      payChanClaimDoApply e tx l = (TER.tecUNFUNDED_PAYMENT, l) := by
    intro hrange
    simp only [payChanClaimDoApply, hch, hbal]
    rw [if_neg (by simp [hopen]), if_neg hp, if_neg hs1, if_neg hs2]
    rcases hrange with hr | hr
    · by_cases hlt : ch.amount.value < reqBalance.value
      · rw [if_pos hlt]
      · rw [if_neg hlt, if_pos hr]
    · rw [if_pos hr]
  refine ⟨hpart1, ?_⟩
  intro hsucc
  by_cases hin1 : ch.balance.value < reqBalance.value
  · by_cases hin2 : reqBalance.value ≤ ch.amount.value
    · exact ⟨hin1, hin2⟩
    · rw [hpart1 (Or.inr (by omega))] at hsucc
      simp at hsucc
  · rw [hpart1 (Or.inl (by omega))] at hsucc
    simp at hsucc

/-- Witness for C7: an owner-initiated over-claim (requested balance 150,
channel amount 100) on an open channel returns tecUNFUNDED_PAYMENT leaving
the view unchanged. -/
theorem payChanClaim_balance_range_witness :
    payChanClaimDoApply extOk c7Tx c7Ledger = (TER.tecUNFUNDED_PAYMENT, c7Ledger) :=
  (payChanClaim_balance_range extOk c7Tx c7Ledger c7Chan { isXRP := true, value := 150 }
    rfl rfl rfl (Or.inl rfl) (fun h => absurd h (by decide)) (fun h => absurd h (by decide))).1
    (Or.inr (by decide))

/-- C8: for every PayChanFund by the owner on a live channel that supplies
an Expiration, the fund fails with temBAD_EXPIRATION exactly when the
supplied value is below the floor — parentCloseTime + settleDelay, lowered
to the channel's current expiration when that is already earlier — and
otherwise the supplied value is stored as the staged channel's expiration. -/
theorem payChanFund_expiration_floor (e : Ext) (tx : FundTx) (l : Ledger) (ch : PayChanEntry)
    (ext2 : Nat)
    (hch : l.chan = some ch)
    (hopen : chanElapsed l.parentCloseTime ch = false)
    (howner : ch.account = tx.txAccount)
    (hxrp : tx.amount.isXRP = true)
    (hext : tx.expiration = some ext2) :
    (ext2 < expirationFloor l.parentCloseTime ch.settleDelay ch.expiration →
      payChanFundDoApply e tx l = (TER.temBAD_EXPIRATION, l)) ∧
    (expirationFloor l.parentCloseTime ch.settleDelay ch.expiration ≤ ext2 →
      ((payChanFundDoApply e tx l).2.chan).map PayChanEntry.expiration = some (some ext2)) := by
  have hnd : ¬ (tx.amount.isXRP = false ∧ e.featureTokens = true ∧ e.fundDryResult.isTes = false) := by
    rintro ⟨hx, -, -⟩
    rw [hxrp] at hx
    cases hx
  have hperm : ¬ ch.account ≠ tx.txAccount := fun hx => hx howner
  constructor
  · intro hlt
    simp only [payChanFundDoApply, hch, hext]
    rw [if_neg hnd, if_neg (by simp [hopen]), if_neg hperm, if_pos hlt]
  · intro hge
    simp only [payChanFundDoApply, hch, hext]
    rw [if_neg hnd, if_neg (by simp [hopen]), if_neg hperm, if_neg (not_lt.mpr hge)]
    rcases fundRest_chan_shape e tx
        { l with chan := some { ch with expiration := some ext2 } }
        { ch with expiration := some ext2 } rfl with h | h
    · rw [h]
      rfl
    · rw [h]
      rfl

/-- Witness for C8: the floor statement evaluated at an owner fund supplying
expiration 4000 on a channel with settleDelay 3600 at parentCloseTime 200. -/
theorem payChanFund_expiration_floor_witness :
    (4000 < expirationFloor c8Ledger.parentCloseTime c8Chan.settleDelay c8Chan.expiration →
      payChanFundDoApply extOk c8Tx c8Ledger = (TER.temBAD_EXPIRATION, c8Ledger)) ∧
    (expirationFloor c8Ledger.parentCloseTime c8Chan.settleDelay c8Chan.expiration ≤ 4000 →
      ((payChanFundDoApply extOk c8Tx c8Ledger).2.chan).map PayChanEntry.expiration
        = some (some 4000)) :=
  payChanFund_expiration_floor extOk c8Tx c8Ledger c8Chan 4000 rfl rfl rfl rfl rfl

end RippledHooks
